import Mathlib

/-!
Verification development for the order-processing stack
(`lib/order-processing-stack.ts`, read here as `src/unnamed/part_000`).

The repository is an AWS CDK declaration: a DynamoDB table `Orders`
(partition key `orderId`, lines 21-25), an SQS queue `order-queue` with
dead-letter queue `order-dlq` and `maxReceiveCount 3` (lines 28-39), an SSM
string parameter `/orders/config/max-items` with value `"100"` (lines
54-58), four Lambda functions (lines 71-114), an SQS event source wiring
`order-queue` to `ProcessOrderFunction` with batch size 10 (lines 128-130),
and a Step Functions state machine `OrderWorkflow` (lines 133-165) whose
definition is the linear chain
`ValidateOrder -> ProcessPayment -> GenerateReceipt -> NotifyCustomer ->
OrderComplete`, with an overall execution timeout of 5 minutes.

The embedding below models the declared resources directly from the source
and gives the state machine the standard Amazon States Language semantics:
a `Pass` state with `result` and `resultPath` merges a fixed object into
the execution document at the given key; a `LambdaInvoke` task with
`outputPath` set to the payload selector replaces the document with the
invoked function's payload; an execution that exceeds the state machine's
`timeout` is forcibly failed (the timeout reason is rendered as the string
"timeout", the vocabulary the design document uses for that outcome); an
unhandled task error fails the execution (rendered "States.TaskFailed",
the default error name, since the machine declares no Catch and no Fail
state).  Lambda handler bodies live under `lambda/` and are not part of
the sources here; where a concrete payload is needed it is modelled from
the spec and marked as such.
-/

/-- JSON-like values carried in a Step Functions execution document. -/
inductive Json where
  | str : String → Json
  | num : Int → Json
  | bool : Bool → Json
  | obj : List (String × Json) → Json
  | arr : List Json → Json

/-- An execution document: a JSON object, as an association list of fields. -/
def Doc : Type := List (String × Json)

/-- Look up a top-level field of a document. -/
def lookupField (d : Doc) (k : String) : Option Json :=
  match d with
  | [] => none
  | (k', v) :: rest => if k' = k then some v else lookupField rest k

/-- Set a top-level field of a document, as a `resultPath` of depth one
does: overwrite the field if present, append it otherwise, leaving every
other field in place. -/
def setField (d : Doc) (k : String) (v : Json) : Doc :=
  match d with
  | [] => [(k, v)]
  | (k', v') :: rest =>
    if k' = k then (k, v) :: rest else (k', v') :: setField rest k v

theorem lookupField_setField_self (d : Doc) (k : String) (v : Json) :
    lookupField (setField d k v) k = some v := by
  induction d with
  | nil => simp [setField, lookupField]
  | cons p rest ih =>
    obtain ⟨k', v'⟩ := p
    by_cases h : k' = k
    · simp [setField, lookupField, h]
    · simp [setField, lookupField, h, ih]

theorem lookupField_setField_ne (d : Doc) (k k' : String) (v : Json)
    (h : k' ≠ k) : lookupField (setField d k v) k' = lookupField d k' := by
  induction d with
  | nil => simp [setField, lookupField, Ne.symm h]
  | cons p rest ih =>
    obtain ⟨k₀, v₀⟩ := p
    by_cases h0 : k₀ = k
    · subst h0
      simp [setField, lookupField, Ne.symm h]
    · simp [setField, lookupField, h0, ih]

/-- The four Lambda functions declared in the stack (lines 71-114). -/
inductive LambdaFn where
  | createOrderFn
  | getOrderFn
  | processOrderFn
  | generateReceiptFn
deriving DecidableEq

/-- The `functionName` property of each declared Lambda function. -/
def functionNameOf : LambdaFn → String
  | .createOrderFn => "CreateOrderFunction"
  | .getOrderFn => "GetOrderFunction"
  | .processOrderFn => "ProcessOrderFunction"
  | .generateReceiptFn => "GenerateReceiptFunction"

/-- A `tasks.LambdaInvoke` state as declared: the function it invokes and
its `outputPath`. -/
structure LambdaInvokeDef where
  lambdaFunction : LambdaFn
  outputPath : String

/-- The `GenerateReceipt` task (lines 143-146): invokes
`GenerateReceiptFunction`, output path selects the payload. -/
def generateReceiptTask : LambdaInvokeDef :=
  { lambdaFunction := .generateReceiptFn, outputPath := "$.Payload" }

/-- The `NotifyCustomer` task (lines 148-151): invokes
`ProcessOrderFunction` (not a distinct notify handler), output path
selects the payload. -/
def notifyCustomerTask : LambdaInvokeDef :=
  { lambdaFunction := .processOrderFn, outputPath := "$.Payload" }

/-- An SQS event source mapping as declared: source queue, batch size and
target function. -/
structure EventSourceDef where
  queueName : String
  batchSize : Nat
  target : LambdaFn

/-- The one event source in the stack (lines 128-130): `order-queue`
feeds `ProcessOrderFunction` in batches of up to 10. -/
def processOrderEventSource : EventSourceDef :=
  { queueName := "order-queue", batchSize := 10, target := .processOrderFn }

/-- States of the `OrderWorkflow` state machine (lines 133-159). -/
inductive SfnState where
  | validateOrder
  | processPayment
  | generateReceipt
  | notifyCustomer
  | orderComplete
deriving DecidableEq

/-- Successor of each state under the declared chain
`validateOrder.next(processPayment).next(generateReceipt)
.next(notifyCustomer).next(orderComplete)` (lines 155-159);
`orderComplete` is the `Succeed` state and has no successor. -/
def nextState : SfnState → Option SfnState
  | .validateOrder => some .processPayment
  | .processPayment => some .generateReceipt
  | .generateReceipt => some .notifyCustomer
  | .notifyCustomer => some .orderComplete
  | .orderComplete => none

/-- The declared chain, in order (lines 155-159). -/
def definitionChain : List SfnState :=
  [.validateOrder, .processPayment, .generateReceipt, .notifyCustomer,
   .orderComplete]

/-- Behaviour of the deployed Lambda functions: each maps its input
payload document to its output payload document.  The bodies live under
`lambda/` and are outside the sources here, so executions are parametric
in this environment. -/
def LambdaEnv : Type := LambdaFn → Doc → Doc

/-- Data transform of one state on the execution document, per the
declared properties.  `ValidateOrder` (lines 133-136) is a `Pass` with the
fixed result object at `resultPath` `$.validation`; `ProcessPayment`
(lines 138-141) is a `Pass` with the fixed result object at `$.payment`;
the two `LambdaInvoke` tasks select `$.Payload`, so their output is the
invoked function's payload, replacing the document; the `Succeed` state
passes the document through. -/
def applyState (env : LambdaEnv) : SfnState → Doc → Doc
  | .validateOrder, d =>
    setField d "validation" (Json.obj [("validated", Json.bool true)])
  | .processPayment, d =>
    setField d "payment" (Json.obj [("paymentStatus", Json.str "SUCCESS")])
  | .generateReceipt, d => env generateReceiptTask.lambdaFunction d
  | .notifyCustomer, d => env notifyCustomerTask.lambdaFunction d
  | .orderComplete, d => d

/-- Run a list of states left to right over a document. -/
def runDoc (env : LambdaEnv) (input : Doc) : List SfnState → Doc
  | [] => input
  | s :: rest => runDoc env (applyState env s input) rest

/-- Failure-free engine trace from a given state: the list of states the
engine enters, each paired with the document it observes on entry.  Fuel
bounds the recursion; the chain has five states, so fuel 6 runs it to the
end. -/
def engineTrace (env : LambdaEnv) : Nat → Option SfnState → Doc →
    List (SfnState × Doc)
  | 0, _, _ => []
  | _ + 1, none, _ => []
  | n + 1, some s, d => (s, d) :: engineTrace env n (nextState s) (applyState env s d)

/-- C1: every execution of `OrderWorkflow` runs the steps exactly in the
declared order ValidateOrder, ProcessPayment, GenerateReceipt,
NotifyCustomer, OrderComplete — none skipped, none reordered — and the
document each step observes on entry is exactly the result of running the
strictly earlier steps on the input, so a step's output is visible only
to later steps. -/
theorem steps_run_in_declared_order (env : LambdaEnv) (input : Doc) :
    engineTrace env 6 (some SfnState.validateOrder) input =
      [(SfnState.validateOrder, runDoc env input (definitionChain.take 0)),
       (SfnState.processPayment, runDoc env input (definitionChain.take 1)),
       (SfnState.generateReceipt, runDoc env input (definitionChain.take 2)),
       (SfnState.notifyCustomer, runDoc env input (definitionChain.take 3)),
       (SfnState.orderComplete, runDoc env input (definitionChain.take 4))] ∧
    (engineTrace env 6 (some SfnState.validateOrder) input).map Prod.fst =
      definitionChain :=
  ⟨rfl, rfl⟩

/-- Outcome-level status of an execution: running at a state, succeeded
(the `Succeed` state was reached), or failed with a reason string. -/
inductive ExecStatus where
  | running : SfnState → ExecStatus
  | succeeded : ExecStatus
  | failed : String → ExecStatus
deriving DecidableEq

/-- Failure reason of a status, if it is a failure. -/
def statusFailReason : ExecStatus → Option String
  | .failed r => some r
  | _ => none

/-- The state machine's overall timeout: `cdk.Duration.minutes(5)`
(line 164). -/
def stateMachineTimeoutMinutes : Nat := 5

/-- The same bound in seconds. -/
def timeoutSeconds : Nat := stateMachineTimeoutMinutes * 60

/-- Whether a state is a `tasks.LambdaInvoke` task.  Only the two Lambda
tasks can raise a state-level error; `Pass` and `Succeed` states cannot. -/
def isLambdaTask : SfnState → Bool
  | .generateReceipt => true
  | .notifyCustomer => true
  | _ => false

/-- Status after a state completes: its successor in the chain, or
succeeded when the `Succeed` state finishes. -/
def afterState (s : SfnState) : ExecStatus :=
  match nextState s with
  | some s' => .running s'
  | none => .succeeded

/-- A configuration of one `OrderWorkflow` execution: its status, its
document, and the seconds elapsed since it started. -/
structure Config where
  status : ExecStatus
  doc : Doc
  elapsed : Nat

/-- Small-step execution relation of the deployed `OrderWorkflow`, per
Amazon States Language semantics applied to the declared machine:
`advance` completes the current state (any amount of time may pass);
`taskFail` is an unhandled error of a Lambda task (the machine declares no
Catch, so it fails the execution with the default error, rendered
"States.TaskFailed"); `tick` lets time pass while a state is in flight;
`timeout` forcibly fails an execution whose elapsed time exceeds the
5-minute bound of line 164, rendered with the reason "timeout".  While the
bound is exceeded the service performs no further work, so `advance`,
`taskFail` and `tick` are only enabled within the bound.  Terminal
statuses have no outgoing transition. -/
inductive Step (env : LambdaEnv) : Config → Config → Prop where
  | advance (s : SfnState) (d : Doc) (t dt : Nat) (h : t ≤ timeoutSeconds) :
      Step env ⟨.running s, d, t⟩ ⟨afterState s, applyState env s d, t + dt⟩
  | taskFail (s : SfnState) (d : Doc) (t : Nat) (h : t ≤ timeoutSeconds)
      (hs : isLambdaTask s = true) :
      Step env ⟨.running s, d, t⟩ ⟨.failed "States.TaskFailed", d, t⟩
  | tick (s : SfnState) (d : Doc) (t dt : Nat) (h : t ≤ timeoutSeconds) :
      Step env ⟨.running s, d, t⟩ ⟨.running s, d, t + dt⟩
  | timeout (s : SfnState) (d : Doc) (t : Nat) (h : timeoutSeconds < t) :
      Step env ⟨.running s, d, t⟩ ⟨.failed "timeout", d, t⟩

/-- C3: the Failed terminal state is reachable from every non-terminal
state of the workflow.  The five non-terminal configurations `running s`
correspond one-to-one to the design states Submitted (about to validate),
Validated (about to process payment), PaymentProcessed (about to generate
the receipt), ReceiptGenerated (about to notify) and Notified (about to
record completion); from each of them, an execution can reach the
terminal `failed` status — at the latest by exceeding the 5-minute bound,
which is possible in any state. -/
theorem failed_reachable_from_every_nonterminal (env : LambdaEnv)
    (s : SfnState) (d : Doc) (t : Nat) :
    ∃ t', Relation.ReflTransGen (Step env)
      ⟨.running s, d, t⟩ ⟨.failed "timeout", d, t'⟩ := by
  by_cases h : t ≤ timeoutSeconds
  · refine ⟨t + (timeoutSeconds + 1), ?_⟩
    exact Relation.ReflTransGen.head
      (Step.tick s d t (timeoutSeconds + 1) h)
      (Relation.ReflTransGen.single
        (Step.timeout s d (t + (timeoutSeconds + 1)) (by omega)))
  · exact ⟨t, Relation.ReflTransGen.single (Step.timeout s d t (by omega))⟩

/-- C5: every execution is bounded by the 5-minute (300-second) overall
timeout of line 164: from any configuration whose elapsed time exceeds the
bound, whatever state is in flight, the only possible transition is the
forced termination in the Failed state with reason "timeout", and that
transition is indeed enabled. -/
theorem timeout_forces_failed (env : LambdaEnv) (s : SfnState) (d : Doc)
    (t : Nat) (c' : Config) (h1 : timeoutSeconds < t)
    (h2 : Step env ⟨.running s, d, t⟩ c') :
    c' = ⟨.failed "timeout", d, t⟩ ∧ timeoutSeconds = 300 ∧
      Step env ⟨.running s, d, t⟩ ⟨.failed "timeout", d, t⟩ := by
  cases h2 with
  | advance s d t dt h => omega
  | taskFail s d t h hs => omega
  | tick s d t dt h => omega
  | timeout s d t h => exact ⟨rfl, rfl, Step.timeout s d t h1⟩

/-- An SSM string parameter as declared: name, stored string value,
description. -/
structure StringParameterDef where
  parameterName : String
  stringValue : String
  description : String

/-- The configuration parameter of the stack (lines 54-58). -/
def appConfigParam : StringParameterDef :=
  { parameterName := "/orders/config/max-items"
    stringValue := "100"
    description := "Maximum items per order" }

/-- Read-only configuration lookup over the declared parameters: the
stack declares exactly one, so only its name resolves. -/
def configLookup (name : String) : Option String :=
  if name = appConfigParam.parameterName then some appConfigParam.stringValue
  else none

/-- Value of a decimal digit character, if it is one. -/
def digitVal (c : Char) : Option Nat :=
  if 48 ≤ c.toNat ∧ c.toNat ≤ 57 then some (c.toNat - 48) else none

/-- Accumulate a decimal number over characters; any non-digit rejects. -/
def parseNatAux : List Char → Nat → Option Nat
  | [], acc => some acc
  | c :: rest, acc =>
    match digitVal c with
    | some dv => parseNatAux rest (acc * 10 + dv)
    | none => none

/-- Parse a non-empty all-digit string as a natural number. -/
def parseNat (s : String) : Option Nat :=
  match s.data with
  | [] => none
  | l => parseNatAux l 0

/-- The configured maximum number of items per order, read from the
parameter's stored string. -/
def maxItemsConfigured : Option Nat := parseNat appConfigParam.stringValue

/-- C8 counterexample: the stack holds no configuration entry under the
key "max-items-per-order" — the declared parameter name is
"/orders/config/max-items" — so a lookup under the claimed key returns
nothing rather than the integer 100. -/
theorem config_key_mismatch_cex :
    configLookup "max-items-per-order" = none ∧
    appConfigParam.parameterName ≠ "max-items-per-order" := by
  constructor
  · decide
  · decide

/-- C8 amended: the read-only configuration parameter holding the maximum
number of items per order is stored under the key
"/orders/config/max-items"; its stored value is the string "100", which
parses as the integer 100. -/
theorem config_max_items_value :
    appConfigParam.parameterName = "/orders/config/max-items" ∧
    configLookup appConfigParam.parameterName = some "100" ∧
    maxItemsConfigured = some 100 ∧
    appConfigParam.description = "Maximum items per order" := by
  refine ⟨rfl, by decide, by decide, rfl⟩

/-- An SQS queue as declared: its name and, when a redrive policy is
configured, the dead-letter queue name and `maxReceiveCount`. -/
structure QueueDef where
  queueName : String
  dlqName : Option String
  maxReceiveCount : Option Nat

/-- The dead-letter queue (lines 28-30): no redrive policy of its own. -/
def orderDlq : QueueDef :=
  { queueName := "order-dlq", dlqName := none, maxReceiveCount := none }

/-- The live queue (lines 33-39): dead-letters to `order-dlq` after
`maxReceiveCount 3`. -/
def orderQueue : QueueDef :=
  { queueName := "order-queue", dlqName := some "order-dlq"
    maxReceiveCount := some 3 }

/-- Event-source resolution by queue name: the stack wires only
`order-queue` to a consumer (lines 128-130); `order-dlq` has none. -/
def eventSourceTarget (q : String) : Option LambdaFn :=
  if q = processOrderEventSource.queueName then
    some processOrderEventSource.target
  else none

/-- Where a tracked message currently sits. -/
inductive MsgLoc where
  | live
  | deadLetter
deriving DecidableEq

/-- State of one queue message: its location and its receive count. -/
structure MsgState where
  loc : MsgLoc
  receiveCount : Nat
deriving DecidableEq

/-- One failed delivery attempt against the live queue, per the SQS
redrive policy declared at lines 33-39: the receive count increments, and
once it reaches the queue's `maxReceiveCount` the message is moved to the
dead-letter queue; a message already dead-lettered is untouched (the
dead-letter queue has no redrive policy and no consumer). -/
def failDeliver (m : MsgState) : MsgState :=
  match m.loc with
  | .deadLetter => m
  | .live =>
    if orderQueue.maxReceiveCount.getD 0 ≤ m.receiveCount + 1 then
      { loc := .deadLetter, receiveCount := m.receiveCount + 1 }
    else
      { loc := .live, receiveCount := m.receiveCount + 1 }

/-- Name of the queue a message currently sits in. -/
def currentQueueName (m : MsgState) : String :=
  match m.loc with
  | .live => orderQueue.queueName
  | .deadLetter => orderDlq.queueName

/-- The function, if any, that would be invoked automatically for a
message where it currently sits. -/
def autoConsumer (m : MsgState) : Option LambdaFn :=
  eventSourceTarget (currentQueueName m)

/-- C6: a fresh queue message whose delivery fails 3 consecutive times is
moved to the dead-letter queue and is no longer in the live queue; while
live it would be consumed automatically (by `ProcessOrderFunction`, the
function that starts the processing work), but once dead-lettered no
consumer is wired to it, and any number of further scheduler steps leaves
it dead-lettered untouched — no workflow execution is started for it
automatically thereafter. -/
theorem dlq_after_three_failures (k : Nat) :
    (failDeliver (failDeliver (failDeliver ⟨.live, 0⟩))).loc =
      MsgLoc.deadLetter ∧
    (failDeliver (failDeliver (failDeliver ⟨.live, 0⟩))).loc ≠ MsgLoc.live ∧
    autoConsumer ⟨.live, 0⟩ = some LambdaFn.processOrderFn ∧
    autoConsumer (failDeliver (failDeliver (failDeliver ⟨.live, 0⟩))) =
      none ∧
    failDeliver^[k] (failDeliver (failDeliver (failDeliver ⟨.live, 0⟩))) =
      failDeliver (failDeliver (failDeliver ⟨.live, 0⟩)) := by
  refine ⟨by decide, by decide, by decide, by decide, ?_⟩
  exact Function.iterate_fixed (by decide) k

/-- Modelled from the spec: the persisted order record layout of section
6 — `orderId`, customer name, item identifiers, total (a non-negative
decimal, carried here as an integer amount), creation timestamp, status.
Only the table declaration (partition key `orderId`, lines 21-25) is in
the sources; the record layout comes from the design document. -/
structure Order where
  orderId : String
  customerName : String
  items : List String
  total : Int
  createdAt : String
  status : String

/-- Modelled from the spec: an order is valid when its total is
non-negative (section 3) and its item count does not exceed the
configured maximum read from the `/orders/config/max-items` parameter. -/
def Order.valid (o : Order) : Bool :=
  decide (0 ≤ o.total) && decide (o.items.length ≤ maxItemsConfigured.getD 0)

/-- An order store keyed by order identifier, as the `Orders` table is
(partition key `orderId`, line 23). -/
def OrderStore : Type := String → Option Order

/-- Modelled from the spec: the create-order handler body
(`lambda/create-order`) is not in the sources; per section 4.3, `put`
creates or fully replaces the record under the order's identifier. -/
def putOrder (store : OrderStore) (o : Order) : OrderStore :=
  fun k => if k = o.orderId then some o else store k

/-- Modelled from the spec: the get-order handler body
(`lambda/get-order`) is not in the sources; per section 4.3, `get`
returns the record under the identifier or nothing. -/
def getOrder (store : OrderStore) (k : String) : Option Order := store k

/-- A store holding no orders. -/
def emptyOrderStore : OrderStore := fun _ => none

/-- The order of the spec's concrete scenario (section 8): Alice's
two-item order, total carried as an integer amount of cents. -/
def sampleOrder : Order :=
  { orderId := "dbdbbfe3-a4d8-408d-ad55-78b1de2e3873"
    customerName := "Alice"
    items := ["widget", "gadget"]
    total := 4999
    createdAt := "2026-02-08T16:41:20.649Z"
    status := "SUBMITTED" }

/-- An invalid order: its total is negative, violating the section 3
invariant that the total is non-negative. -/
def invalidOrder : Order :=
  { orderId := "order-bad"
    customerName := "Mallory"
    items := ["widget"]
    total := -5
    createdAt := "2026-02-08T17:00:00.000Z"
    status := "SUBMITTED" }

/-- A JSON document carrying an order record. -/
def orderDoc (o : Order) : Doc :=
  [("orderId", Json.str o.orderId),
   ("customerName", Json.str o.customerName),
   ("items", Json.arr (o.items.map Json.str)),
   ("total", Json.num o.total),
   ("createdAt", Json.str o.createdAt),
   ("status", Json.str o.status)]

/-- Modelled from the spec: the Lambda handler bodies under `lambda/` are
not in the sources.  Per section 6 and the repository's example run, the
process-order handler returns the summary document with a `processed`
count and per-order results, and the generate-receipt handler returns a
receipt reference (a storage key); the two handlers not used inside the
workflow are left as the identity. -/
def envModel : LambdaEnv := fun fn d =>
  match fn with
  | .generateReceiptFn => [("receiptKey", Json.str "receipts/order.json")]
  | .processOrderFn =>
    [("processed", Json.num 1),
     ("results", Json.arr [Json.obj
       [("orderId", Json.str "dbdbbfe3-a4d8-408d-ad55-78b1de2e3873"),
        ("status", Json.str "PROCESSED")]])]
  | _ => d

/-- C7: looking up the identifier of a just-submitted valid order returns
exactly the submitted record — `put` followed by `get` on the same
`orderId` is the identity on the order record, before any later status
mutation. -/
theorem put_get_roundtrip (store : OrderStore) (o : Order)
    (h : Order.valid o = true) :
    getOrder (putOrder store o) o.orderId = some o := by
  simp [getOrder, putOrder]

/-- Witness for C7 at the spec's concrete scenario order. -/
theorem put_get_roundtrip_witness :
    Order.valid sampleOrder = true ∧
    getOrder (putOrder emptyOrderStore sampleOrder) sampleOrder.orderId =
      some sampleOrder :=
  ⟨by decide, put_get_roundtrip emptyOrderStore sampleOrder (by decide)⟩

/-- C10: the function the `NotifyCustomer` state invokes is the very
function wired as the SQS event-source consumer — `ProcessOrderFunction`
— and is not the receipt function; there is no distinct notification step
implementation. -/
theorem notify_and_consumer_same_function :
    notifyCustomerTask.lambdaFunction = processOrderEventSource.target ∧
    notifyCustomerTask.lambdaFunction = LambdaFn.processOrderFn ∧
    functionNameOf notifyCustomerTask.lambdaFunction =
      "ProcessOrderFunction" ∧
    notifyCustomerTask.lambdaFunction ≠ generateReceiptTask.lambdaFunction :=
  ⟨rfl, rfl, rfl, by decide⟩

/-- C2 counterexample: on the spec's concrete scenario order, after
`ValidateOrder` and `ProcessPayment` the document holds the key
"validation" written by the first step, but after `GenerateReceipt` —
whose `outputPath` replaces the document with the Lambda payload — that
key is gone, so a later step does remove a key written by a prior step. -/
theorem step_keys_not_preserved_cex :
    lookupField (runDoc envModel (orderDoc sampleOrder)
        [SfnState.validateOrder, SfnState.processPayment]) "validation" =
      some (Json.obj [("validated", Json.bool true)]) ∧
    lookupField (runDoc envModel (orderDoc sampleOrder)
        [SfnState.validateOrder, SfnState.processPayment,
         SfnState.generateReceipt]) "validation" = none :=
  ⟨rfl, rfl⟩

/-- C2 amended: the two `Pass` steps do merge their outputs into the
document under the step-specific keys "validation" and "payment", leaving
every other key unchanged; but the two `LambdaInvoke` steps
(`GenerateReceipt`, `NotifyCustomer`) select `$.Payload` as their output,
replacing the whole document with the invoked Lambda's payload, so keys
written by earlier steps survive them only if the Lambda echoes them
back. -/
theorem step_merge_semantics (env : LambdaEnv) (d : Doc) (k : String)
    (h1 : (k == "validation") = false) (h2 : (k == "payment") = false) :
    lookupField (applyState env SfnState.validateOrder d) "validation" =
      some (Json.obj [("validated", Json.bool true)]) ∧
    lookupField (applyState env SfnState.validateOrder d) k =
      lookupField d k ∧
    lookupField (applyState env SfnState.processPayment d) "payment" =
      some (Json.obj [("paymentStatus", Json.str "SUCCESS")]) ∧
    lookupField (applyState env SfnState.processPayment d) k =
      lookupField d k ∧
    applyState env SfnState.generateReceipt d =
      env generateReceiptTask.lambdaFunction d ∧
    applyState env SfnState.notifyCustomer d =
      env notifyCustomerTask.lambdaFunction d := by
  refine ⟨lookupField_setField_self d _ _, ?_,
    lookupField_setField_self d _ _, ?_, rfl, rfl⟩
  · exact lookupField_setField_ne d "validation" k _ (by simpa using h1)
  · exact lookupField_setField_ne d "payment" k _ (by simpa using h2)

/-- Witness for C2's amended statement at the key "orderId" on the
concrete scenario order. -/
theorem step_merge_semantics_witness :
    (("orderId" == "validation") = false) ∧
    (("orderId" == "payment") = false) ∧
    (lookupField (applyState envModel SfnState.validateOrder
        (orderDoc sampleOrder)) "validation" =
      some (Json.obj [("validated", Json.bool true)]) ∧
    lookupField (applyState envModel SfnState.validateOrder
        (orderDoc sampleOrder)) "orderId" =
      lookupField (orderDoc sampleOrder) "orderId" ∧
    lookupField (applyState envModel SfnState.processPayment
        (orderDoc sampleOrder)) "payment" =
      some (Json.obj [("paymentStatus", Json.str "SUCCESS")]) ∧
    lookupField (applyState envModel SfnState.processPayment
        (orderDoc sampleOrder)) "orderId" =
      lookupField (orderDoc sampleOrder) "orderId" ∧
    applyState envModel SfnState.generateReceipt (orderDoc sampleOrder) =
      envModel generateReceiptTask.lambdaFunction (orderDoc sampleOrder) ∧
    applyState envModel SfnState.notifyCustomer (orderDoc sampleOrder) =
      envModel notifyCustomerTask.lambdaFunction (orderDoc sampleOrder)) :=
  ⟨by decide, by decide,
    step_merge_semantics envModel (orderDoc sampleOrder) "orderId"
      (by decide) (by decide)⟩

/-- C4 counterexample: on a concrete invalid order (negative total), the
`ValidateOrder` step does not fail — it is a `Pass` with the constant
result — and the execution runs `ProcessPayment`, `GenerateReceipt` and
`NotifyCustomer` all the way to `OrderComplete`, producing the final
summary, instead of stopping before payment in a Failed state with reason
"validation". -/
theorem invalid_order_runs_all_steps_cex :
    Order.valid invalidOrder = false ∧
    (engineTrace envModel 6 (some SfnState.validateOrder)
        (orderDoc invalidOrder)).map Prod.fst = definitionChain ∧
    lookupField (runDoc envModel (orderDoc invalidOrder) definitionChain)
      "processed" = some (Json.num 1) :=
  ⟨by decide, rfl, rfl⟩

/-- C4 amended: the `ValidateOrder` step cannot fail and no execution
terminates Failed with reason "validation": the machine declares no Fail
state and no Catch, so no transition of the execution relation ever
produces that status, and every execution of the failure-free engine runs
all five steps in order whatever the order document holds. -/
theorem validate_step_cannot_fail (env : LambdaEnv) (d : Doc)
    (c c' : Config) (h : Step env c c') :
    ((statusFailReason c'.status == some "validation") = false) ∧
    (engineTrace env 6 (some SfnState.validateOrder) d).map Prod.fst =
      definitionChain := by
  refine ⟨?_, rfl⟩
  cases h with
  | advance s d' t dt hle => cases s <;> rfl
  | taskFail s d' t hle htask => rfl
  | tick s d' t dt hle => rfl
  | timeout s d' t hgt => rfl

/-- Witness for C4's amended statement at a concrete timed-out step. -/
theorem validate_step_cannot_fail_witness :
    ((statusFailReason
        (Config.mk (ExecStatus.failed "timeout") [] 301).status ==
      some "validation") = false) ∧
    (engineTrace envModel 6 (some SfnState.validateOrder) []).map
      Prod.fst = definitionChain :=
  validate_step_cannot_fail envModel []
    ⟨ExecStatus.running SfnState.validateOrder, [], 301⟩
    ⟨ExecStatus.failed "timeout", [], 301⟩
    (Step.timeout SfnState.validateOrder [] 301 (by decide))

/-- Witness for C5 at a concrete configuration 301 seconds into the
`GenerateReceipt` step. -/
theorem timeout_forces_failed_witness :
    (Config.mk (ExecStatus.failed "timeout") [] 301 =
      ⟨ExecStatus.failed "timeout", [], 301⟩) ∧ timeoutSeconds = 300 ∧
    Step envModel ⟨ExecStatus.running SfnState.generateReceipt, [], 301⟩
      ⟨ExecStatus.failed "timeout", [], 301⟩ :=
  timeout_forces_failed envModel SfnState.generateReceipt [] 301
    ⟨ExecStatus.failed "timeout", [], 301⟩ (by decide)
    (Step.timeout SfnState.generateReceipt [] 301 (by decide))

/-- C9: the two `Pass` steps are constant: for every input document,
`ValidateOrder` merges exactly the fixed object carrying `validated`
true at "validation", and `ProcessPayment` merges exactly the fixed
object carrying payment status SUCCESS at "payment"; and neither step
can fail or reject an input — from a configuration running either step,
no transition produces a failure other than the execution-level timeout
(`Pass` states raise no task error). -/
theorem pass_steps_constant_and_total (env : LambdaEnv) (d : Doc)
    (s : SfnState) (dd : Doc) (t : Nat) (c' : Config)
    (hs : s = SfnState.validateOrder ∨ s = SfnState.processPayment)
    (h : Step env ⟨ExecStatus.running s, dd, t⟩ c') :
    applyState env SfnState.validateOrder d =
      setField d "validation" (Json.obj [("validated", Json.bool true)]) ∧
    applyState env SfnState.processPayment d =
      setField d "payment" (Json.obj [("paymentStatus", Json.str "SUCCESS")]) ∧
    (statusFailReason c'.status = none ∨
      statusFailReason c'.status = some "timeout") := by
  refine ⟨rfl, rfl, ?_⟩
  cases h with
  | advance s d' t dt hle =>
    left
    rcases hs with h1 | h1 <;> subst h1 <;> rfl
  | taskFail s d' t hle htask =>
    rcases hs with h1 | h1 <;> subst h1 <;> simp [isLambdaTask] at htask
  | tick s d' t dt hle => left; rfl
  | timeout s d' t hgt => right; rfl

/-- Witness for C9 at a concrete timed-out configuration of the
`ValidateOrder` step. -/
theorem pass_steps_constant_witness :
    applyState envModel SfnState.validateOrder [] =
      setField [] "validation" (Json.obj [("validated", Json.bool true)]) ∧
    applyState envModel SfnState.processPayment [] =
      setField [] "payment" (Json.obj [("paymentStatus", Json.str "SUCCESS")]) ∧
    (statusFailReason
        (Config.mk (ExecStatus.failed "timeout") [] 301).status = none ∨
      statusFailReason
        (Config.mk (ExecStatus.failed "timeout") [] 301).status =
          some "timeout") :=
  pass_steps_constant_and_total envModel [] SfnState.validateOrder [] 301
    ⟨ExecStatus.failed "timeout", [], 301⟩ (Or.inl rfl)
    (Step.timeout SfnState.validateOrder [] 301 (by decide))
